import Mathlib

/-!
Shallow embedding of the product-catalog controller of the buy2brands
backend (`src/controllers/product.controller.js`), together with the small
parts of its surroundings that the controller observes: the document store's
product collection, the media-hosting collaborator, and the `new RegExp`
matching the controller builds for search and brand filtering.

Conventions of the embedding:
* documents are records over `Nat`/`String`/`List`; the store is the list of
  persisted products; `findById`/`saveProduct`/`Product.create` model the
  document-store round trips the controller awaits;
* external collaborators (the `$text` search primitive, the media upload
  functions) are passed in as function parameters, and the failure of a
  media deletion call is an explicit oracle value;
* a handler that can only answer returns its response directly; a handler
  whose body can throw past its own `catch`-free awaits returns
  `Except String _`, where `Except.error` is the `next(error)` path.
-/

set_option linter.unusedVariables false

namespace B2B

/-- An image reference `{url, publicId}` stored on a product; `publicId` is
the deletion handle into the media collaborator. -/
structure Image where
  url : String
  publicId : String
deriving DecidableEq, Repr

/-- The optional size-chart image reference `{imageUrl, imagePublicId}`. -/
structure SizeChart where
  imageUrl : String
  imagePublicId : String
deriving DecidableEq, Repr

/-- A product document as the controller reads and writes it: `_id` and `__v`
are the store's identity and version marker, `createdAt`/`updatedAt` the
system timestamps, and the remaining fields are the payload fields named in
the controller (`name`, `description`, `brand`, `category`, `sku`, `images`,
`sizeChart`, `shippingStructure` (a reference id), `isActive`,
`averageRating`, `reviewCount`). -/
structure Product where
  _id : Nat
  __v : Nat
  createdAt : Nat
  updatedAt : Nat
  name : String
  description : String
  brand : String
  category : String
  sku : Option String
  images : List Image
  sizeChart : Option SizeChart
  shippingStructure : Nat
  isActive : Bool
  averageRating : Nat
  reviewCount : Nat
deriving DecidableEq, Repr

/-- The document store's product collection. -/
structure Store where
  products : List Product
deriving DecidableEq, Repr

/-- Embeds `Product.findById(id)`: the first document whose `_id` equals the given
id, or `none`. The `populate('shippingStructure', ...)` chained on the reads
resolves the external shipping-structure reference and is not modelled: it
changes only the shape of the reference in the JSON body, not which product
is returned. -/
def findById (st : Store) (i : Nat) : Option Product :=
  st.products.find? (fun p => p._id == i)

/-- Embeds `product.save()`: persists a modified document back into the collection,
replacing the stored document with the same `_id`. -/
def saveProduct (st : Store) (p : Product) : Store :=
  ⟨st.products.map (fun q => if q._id == p._id then p else q)⟩

/-! ### The `new RegExp(pattern, 'i')` model

`searchProducts` and the brand filter of `getAllProducts` compile
user-supplied text straight into a regular expression. The model covers the
pattern subset exercised in this development: literal characters, `.` (any
character except a line terminator) and `( )` grouping. A pattern on which
the `RegExp` constructor throws (an unterminated or stray group) compiles to
`none`; patterns using metacharacters outside the subset also map to `none`
to keep the model conservative rather than wrong about them. -/

/-- One atom of the modelled regular-expression subset. -/
inductive RAtom where
  | lit (c : Char)
  | dot
deriving DecidableEq, Repr

/-- Regex metacharacters outside the modelled subset; a pattern containing
one is not given a meaning by this model. (The two bracket characters are
written by code point.) -/
def unsupportedMeta : List Char :=
  ['\\', '*', '+', '?', '[', ']', '|', '^', '$', Char.ofNat 123, Char.ofNat 125]

/-- Parses a pattern into its atom sequence, tracking the number of open
groups; `none` models a `SyntaxError` from the `RegExp` constructor (and the
unsupported metacharacters). -/
def parseAtoms : List Char → Nat → Option (List RAtom)
  | [], 0 => some []
  | [], _ + 1 => none
  | c :: rest, depth =>
    if c = '(' then parseAtoms rest (depth + 1)
    else if c = ')' then
      match depth with
      | 0 => none
      | d + 1 => parseAtoms rest d
    else if c = '.' then (parseAtoms rest depth).map (fun as => RAtom.dot :: as)
    else if unsupportedMeta.contains c then none
    else (parseAtoms rest depth).map (fun as => RAtom.lit c :: as)

/-- Models `new RegExp(pattern, 'i')`: compile the pattern, `none` when the
constructor would throw. -/
def compileRegex (pattern : String) : Option (List RAtom) :=
  parseAtoms pattern.toList 0

/-- Case-insensitive match of one atom against one character — the `'i'`
flag is embodied in comparing lowered characters; `.` matches anything but a
line terminator. -/
def atomTest (a : RAtom) (c : Char) : Bool :=
  match a with
  | .lit d => c.toLower == d.toLower
  | .dot => !(c == Char.ofNat 10 || c == Char.ofNat 13)

/-- Whether the atom sequence matches a prefix of the character list. -/
def matchPrefix : List RAtom → List Char → Bool
  | [], _ => true
  | _ :: _, [] => false
  | a :: pat, c :: s => atomTest a c && matchPrefix pat s

/-- Models `regexp.test(s)` (the semantics the store applies to a regex query
value): unanchored — the pattern may match starting at any position. -/
def regexTest (pat : List RAtom) : List Char → Bool
  | [] => matchPrefix pat []
  | c :: s => matchPrefix pat (c :: s) || regexTest pat s

/-- Whether `pat` is literally a prefix of `s` (exact character equality). -/
def startsWithSeq : List Char → List Char → Bool
  | [], _ => true
  | _ :: _, [] => false
  | a :: pat, b :: s => a == b && startsWithSeq pat s

/-- Whether `pat` occurs literally and contiguously inside `s`. -/
def containsSeq (pat : List Char) : List Char → Bool
  | [] => startsWithSeq pat []
  | c :: s => startsWithSeq pat (c :: s) || containsSeq pat s

/-- Case-insensitive literal substring containment — the matching the spec's
prose would suggest for the search term, stated independently of the code's
regex semantics so the two can be compared. -/
def containsCI (pat s : String) : Bool :=
  containsSeq (pat.toList.map Char.toLower) (s.toList.map Char.toLower)

/-! ### The document store's sort primitive -/

/-- Modelled from the spec: the document store's single-key sort primitive,
comparing two documents on one named key (the keys the controller's sort
strings use); an unknown key imposes no order. -/
def keyLe (key : String) (p q : Product) : Bool :=
  match key with
  | "createdAt" => decide (p.createdAt ≤ q.createdAt)
  | "updatedAt" => decide (p.updatedAt ≤ q.updatedAt)
  | "name" => decide (p.name ≤ q.name)
  | "averageRating" => decide (p.averageRating ≤ q.averageRating)
  | _ => true

/-- Modelled from the spec: `.sort(sortBy)` key-string convention — a
leading `-` sorts descending on the rest of the key. -/
def sortLe (sortBy : String) (p q : Product) : Bool :=
  if sortBy.startsWith "-" then keyLe (sortBy.drop 1) q p else keyLe sortBy p q

/-- Insert into a sorted list (helper of the modelled sort). -/
def insertLe (le : Product → Product → Bool) (p : Product) : List Product → List Product
  | [] => [p]
  | q :: rest => if le p q then p :: q :: rest else q :: insertLe le p rest

/-- Modelled from the spec: the document store's sort over the matched
documents, as a stable insertion sort (the claims depend only on the output
being a reordering of the input). -/
def sortProducts (le : Product → Product → Bool) : List Product → List Product
  | [] => []
  | p :: rest => insertLe le p (sortProducts le rest)

/-! ### getAllProducts (list) -/

/-- The query-string options of `GET /api/products` with the controller's
destructuring defaults: `page = 1`, `limit = 10`, `sortBy = '-createdAt'`,
and the three optional filters. -/
structure ListQuery where
  page : Nat := 1
  limit : Nat := 10
  search : Option String := none
  category : Option String := none
  brand : Option String := none
  sortBy : String := "-createdAt"
deriving DecidableEq, Repr

/-- The query object `getAllProducts` builds: `isActive: true` always, plus
`$text` search (the store's text-search primitive, passed in as
`textMatch`), an exact `category` equality, and the brand regex when a brand
filter was supplied. -/
def listQueryPred (textMatch : String → Product → Bool) (q : ListQuery)
    (brandRe : Option (List RAtom)) (p : Product) : Bool :=
  p.isActive
  && (match q.search with
      | some s => textMatch s p
      | none => true)
  && (match q.category with
      | some c => p.category == c
      | none => true)
  && (match brandRe with
      | some re => regexTest re p.brand.toList
      | none => true)

/-- The response body of a successful list call. -/
structure ListResp where
  status : Nat
  success : Bool
  count : Nat
  total : Nat
  totalPages : Nat
  currentPage : Nat
  products : List Product
deriving DecidableEq, Repr

/-- The store round trips of `getAllProducts` once the query is built:
`find(query).sort(sortBy).limit(limit).skip((page-1)*limit)` (the store
applies skip before limit regardless of chain order), then
`countDocuments(query)`; `totalPages` is `Math.ceil(count / limit)`, which
over naturals with a positive `limit` is `(count + limit - 1) / limit`. -/
def runList (textMatch : String → Product → Bool) (st : Store) (q : ListQuery)
    (brandRe : Option (List RAtom)) : ListResp :=
  let filtered := st.products.filter (listQueryPred textMatch q brandRe)
  let sorted := sortProducts (sortLe q.sortBy) filtered
  let pageItems := (sorted.drop ((q.page - 1) * q.limit)).take q.limit
  let count := filtered.length
  { status := 200, success := true, count := pageItems.length, total := count,
    totalPages := (count + q.limit - 1) / q.limit, currentPage := q.page,
    products := pageItems }

/-- Embeds `getAllProducts`: builds the query and runs it; constructing the brand
regex from an invalid pattern throws, which the surrounding `catch` forwards
to `next(error)` (`Except.error` here). -/
def getAllProducts (textMatch : String → Product → Bool) (st : Store)
    (q : ListQuery) : Except String ListResp :=
  match q.brand with
  | some b =>
    match compileRegex b with
    | none => Except.error "SyntaxError: Invalid regular expression"
    | some re => Except.ok (runList textMatch st q (some re))
  | none => Except.ok (runList textMatch st q none)

/-! ### getProduct -/

/-- The response body of `getProduct`. -/
structure GetResp where
  status : Nat
  success : Bool
  message : Option String
  product : Option Product
deriving DecidableEq, Repr

/-- Embeds `getProduct`: `findById`, a 404 envelope when the id resolves to no
document, otherwise 200 with the document. -/
def getProduct (st : Store) (i : Nat) : GetResp :=
  match findById st i with
  | none => { status := 404, success := false, message := some "Product not found", product := none }
  | some p => { status := 200, success := true, message := none, product := some p }

/-! ### createProduct and Product.create -/

/-- The field map handed to `Product.create`: identity, version marker and
timestamps are optional (the store assigns them when absent), the payload
fields carry the document body. -/
structure ProductData where
  _id : Option Nat := none
  __v : Option Nat := none
  createdAt : Option Nat := none
  updatedAt : Option Nat := none
  name : String := ""
  description : String := ""
  brand : String := ""
  category : String := ""
  sku : Option String := none
  images : List Image := []
  sizeChart : Option SizeChart := none
  shippingStructure : Nat := 0
  isActive : Bool := true
  averageRating : Nat := 0
  reviewCount : Nat := 0
deriving DecidableEq, Repr

/-- Modelled from the spec: the document the store persists for a field map,
assigning a fresh id, version marker `0` and the current timestamps when the
field map does not carry them. The model (`Product.model.js` is outside this
component) does not run the sku pre-save hook: sku regeneration is
downstream of what the controller decides. -/
def ProductData.toDoc (d : ProductData) (freshId now : Nat) : Product :=
  { _id := d._id.getD freshId, __v := d.__v.getD 0,
    createdAt := d.createdAt.getD now, updatedAt := d.updatedAt.getD now,
    name := d.name, description := d.description, brand := d.brand,
    category := d.category, sku := d.sku, images := d.images,
    sizeChart := d.sizeChart, shippingStructure := d.shippingStructure,
    isActive := d.isActive, averageRating := d.averageRating,
    reviewCount := d.reviewCount }

/-- Modelled from the spec: `Product.create` — the document store persists a
new document built from the field map and returns it. -/
def Product.create (st : Store) (d : ProductData) (freshId now : Nat) :
    Product × Store :=
  let p : Product := d.toDoc freshId now
  (p, ⟨st.products ++ [p]⟩)

/-- The response body of `createProduct` and `duplicateProduct`. -/
structure CreateResp where
  status : Nat
  success : Bool
  message : Option String
  product : Option Product
deriving DecidableEq, Repr

/-- Embeds `createProduct`: persists the request body and answers 201. -/
def createProduct (st : Store) (body : ProductData) (freshId now : Nat) :
    CreateResp × Store :=
  let created := Product.create st body freshId now
  ({ status := 201, success := true, message := some "Product created successfully",
     product := some created.1 }, created.2)

/-! ### updateProduct -/

/-- The keys a request body to `updateProduct` may carry — one per document
field. -/
inductive FieldKey where
  | _id
  | __v
  | createdAt
  | updatedAt
  | name
  | description
  | brand
  | category
  | sku
  | images
  | sizeChart
  | shippingStructure
  | isActive
  | averageRating
  | reviewCount
deriving DecidableEq, Repr

/-- The `immutableFields` list of `updateProduct`:
`['_id', '__v', 'createdAt', 'updatedAt']`. -/
def immutableFields : List FieldKey :=
  [FieldKey._id, FieldKey.__v, FieldKey.createdAt, FieldKey.updatedAt]

/-- Every field key, in declaration order. -/
def allFieldKeys : List FieldKey :=
  [FieldKey._id, FieldKey.__v, FieldKey.createdAt, FieldKey.updatedAt,
   FieldKey.name, FieldKey.description, FieldKey.brand, FieldKey.category,
   FieldKey.sku, FieldKey.images, FieldKey.sizeChart,
   FieldKey.shippingStructure, FieldKey.isActive, FieldKey.averageRating,
   FieldKey.reviewCount]

/-- A partial update request body: `some v` for a key present in the JSON
body (for `sku`/`sizeChart` the supplied value may itself be the document's
optional value), `none` for an absent key. -/
structure UpdateBody where
  _id : Option Nat := none
  __v : Option Nat := none
  createdAt : Option Nat := none
  updatedAt : Option Nat := none
  name : Option String := none
  description : Option String := none
  brand : Option String := none
  category : Option String := none
  sku : Option (Option String) := none
  images : Option (List Image) := none
  sizeChart : Option (Option SizeChart) := none
  shippingStructure : Option Nat := none
  isActive : Option Bool := none
  averageRating : Option Nat := none
  reviewCount : Option Nat := none
deriving DecidableEq, Repr

/-- Embeds `product[key] = req.body[key]` for one key; a key absent from the body
leaves the field as it was. -/
def assignField (p : Product) (b : UpdateBody) (k : FieldKey) : Product :=
  match k with
  | ._id => { p with _id := b._id.getD p._id }
  | .__v => { p with __v := b.__v.getD p.__v }
  | .createdAt => { p with createdAt := b.createdAt.getD p.createdAt }
  | .updatedAt => { p with updatedAt := b.updatedAt.getD p.updatedAt }
  | .name => { p with name := b.name.getD p.name }
  | .description => { p with description := b.description.getD p.description }
  | .brand => { p with brand := b.brand.getD p.brand }
  | .category => { p with category := b.category.getD p.category }
  | .sku => { p with sku := b.sku.getD p.sku }
  | .images => { p with images := b.images.getD p.images }
  | .sizeChart => { p with sizeChart := b.sizeChart.getD p.sizeChart }
  | .shippingStructure => { p with shippingStructure := b.shippingStructure.getD p.shippingStructure }
  | .isActive => { p with isActive := b.isActive.getD p.isActive }
  | .averageRating => { p with averageRating := b.averageRating.getD p.averageRating }
  | .reviewCount => { p with reviewCount := b.reviewCount.getD p.reviewCount }

/-- The `Object.keys(req.body).forEach` loop of `updateProduct`: assign
every key of the body that is not in `immutableFields`. The dynamic key
iteration is embedded as a fold over all field keys — assigning an absent
key is a no-op, so iterating every key coincides with iterating the present
ones. -/
def applyBody (p : Product) (b : UpdateBody) : Product :=
  allFieldKeys.foldl
    (fun acc k => if immutableFields.contains k then acc else assignField acc b k) p

/-- The response body of `updateProduct`. -/
structure UpdateResp where
  status : Nat
  success : Bool
  message : Option String
  product : Option Product
deriving DecidableEq, Repr

/-- Embeds `updateProduct`: 404 when the id resolves to no document; otherwise the
field loop runs, the document is saved, and the full updated document is
returned with 200. -/
def updateProduct (st : Store) (i : Nat) (b : UpdateBody) : UpdateResp × Store :=
  match findById st i with
  | none =>
    ({ status := 404, success := false, message := some "Product not found",
       product := none }, st)
  | some p =>
    let p' := applyBody p b
    ({ status := 200, success := true, message := some "Product updated successfully",
       product := some p' }, saveProduct st p')

/-! ### deleteProduct -/

/-- Outcome oracle for the media collaborator's two deletion calls inside
`deleteProduct`: `some err` means the corresponding promise rejects with
`err`, `none` that it fulfils. -/
structure MediaOracle where
  deleteMultipleImagesErr : Option String := none
  deleteCloudinaryImageErr : Option String := none
deriving DecidableEq, Repr

/-- The console log `deleteProduct` accumulates: each cleanup call is
guarded exactly as in the source (`images` nonempty; `sizeChart` present
with a truthy — nonempty — `imagePublicId`) and each rejection is caught by
the per-call `.catch` and logged. -/
def cleanupLog (p : Product) (m : MediaOracle) : List String :=
  (if p.images.length > 0 then
    match m.deleteMultipleImagesErr with
    | some e => ["Error deleting product images: " ++ e]
    | none => []
   else []) ++
  (match p.sizeChart with
   | some sc =>
     if sc.imagePublicId = "" then []
     else
       match m.deleteCloudinaryImageErr with
       | some e => ["Error deleting size chart image: " ++ e]
       | none => []
   | none => [])

/-- The response body of `deleteProduct`, carrying the console log of the
cleanup phase. -/
structure DeleteResp where
  status : Nat
  success : Bool
  message : Option String
  log : List String
deriving DecidableEq, Repr

/-- Embeds `deleteProduct`: 404 when the id resolves to no document; otherwise
best-effort media cleanup (each call's rejection caught and logged, never
rethrown), then the soft delete `isActive := false` is saved and 200 is
returned. -/
def deleteProduct (st : Store) (i : Nat) (m : MediaOracle) : DeleteResp × Store :=
  match findById st i with
  | none =>
    ({ status := 404, success := false, message := some "Product not found",
       log := [] }, st)
  | some p =>
    let p' := { p with isActive := false }
    ({ status := 200, success := true, message := some "Product deleted successfully",
       log := cleanupLog p m }, saveProduct st p')

/-! ### searchProducts -/

/-- The response body of `searchProducts`. -/
structure SearchResp where
  status : Nat
  success : Bool
  message : Option String
  count : Nat
  products : List Product
deriving DecidableEq, Repr

/-- The `$or` query of `searchProducts`: the same case-insensitive regex
tested against `name`, `brand` and `description`, conjoined with
`isActive: true`. -/
def searchPred (re : List RAtom) (p : Product) : Bool :=
  (regexTest re p.name.toList || regexTest re p.brand.toList
    || regexTest re p.description.toList)
  && p.isActive

/-- Embeds `searchProducts`: `!q` (a missing or empty term) answers 400; otherwise
the term is compiled into a regex — an invalid pattern throws to
`next(error)` — and the query runs with `.limit(20)`. -/
def searchProducts (st : Store) (q : Option String) : Except String SearchResp :=
  match q with
  | none =>
    Except.ok { status := 400, success := false,
                message := some "Search query is required", count := 0, products := [] }
  | some s =>
    if s = "" then
      Except.ok { status := 400, success := false,
                  message := some "Search query is required", count := 0, products := [] }
    else
      match compileRegex s with
      | none => Except.error "SyntaxError: Invalid regular expression"
      | some re =>
        let found := (st.products.filter (searchPred re)).take 20
        Except.ok { status := 200, success := true, message := none,
                    count := found.length, products := found }

/-- Modelled from the spec: the generic error handler
(`errorHandler.middleware`, outside `src/`) surfaces an error forwarded by
`next(error)` as a 500 status; composing it with `searchProducts` gives the
status the client observes. -/
def handleSearch (st : Store) (q : Option String) : Nat :=
  match searchProducts st q with
  | Except.error _ => 500
  | Except.ok r => r.status

/-! ### duplicateProduct -/

/-- Embeds `originalProduct.toObject()`: the plain field map of the document,
identity, version marker and timestamps included. -/
def Product.toObject (p : Product) : ProductData :=
  { _id := some p._id, __v := some p.__v, createdAt := some p.createdAt,
    updatedAt := some p.updatedAt, name := p.name,
    description := p.description, brand := p.brand, category := p.category,
    sku := p.sku, images := p.images, sizeChart := p.sizeChart,
    shippingStructure := p.shippingStructure, isActive := p.isActive,
    averageRating := p.averageRating, reviewCount := p.reviewCount }

/-- The field map `duplicateProduct` hands to `Product.create`: the
document's `toObject` copy with `_id`/`__v`/`createdAt`/`updatedAt` deleted,
`" (Copy)"` appended to the name, `sku` cleared and the two review
aggregates zeroed. -/
def duplicateData (orig : Product) : ProductData :=
  let productData := orig.toObject
  let productData := { productData with
    _id := none, __v := none, createdAt := none, updatedAt := none }
  { productData with
    name := productData.name ++ " (Copy)", sku := none,
    averageRating := 0, reviewCount := 0 }

/-- Embeds `duplicateProduct`: 404 when the id resolves to no document; otherwise
builds `duplicateData`, creates the new document and answers 201. -/
def duplicateProduct (st : Store) (i : Nat) (freshId now : Nat) :
    CreateResp × Store :=
  match findById st i with
  | none =>
    ({ status := 404, success := false, message := some "Product not found",
       product := none }, st)
  | some orig =>
    let created := Product.create st (duplicateData orig) freshId now
    ({ status := 201, success := true,
       message := some "Product duplicated successfully",
       product := some created.1 }, created.2)

/-! ### The two upload handlers -/

/-- The response body of the two upload handlers. -/
structure UploadResp where
  status : Nat
  success : Bool
  message : Option String
  images : List Image
deriving DecidableEq, Repr

/-- Embeds `uploadImages`: 400 when no file arrived; otherwise the media
collaborator (`uploadProductImages`, passed in as a function) runs and its
failure propagates to `next(error)`; its success is answered with
status 200. -/
def uploadImages (files : List String)
    (uploadProductImages : List String → Except String (List Image)) :
    Except String UploadResp :=
  if files.length = 0 then
    Except.ok { status := 400, success := false,
                message := some "No images provided", images := [] }
  else
    match uploadProductImages files with
    | Except.error e => Except.error e
    | Except.ok imgs =>
      Except.ok { status := 200, success := true,
                  message := some "Images uploaded successfully", images := imgs }

/-- Embeds `uploadSizeChart`: 400 when no file arrived; otherwise the media
collaborator (`uploadSizeChartImage`) runs, its failure propagates, and its
success is answered with status 200. -/
def uploadSizeChart (file : Option String)
    (uploadSizeChartImage : String → Except String Image) :
    Except String UploadResp :=
  match file with
  | none =>
    Except.ok { status := 400, success := false,
                message := some "No image provided", images := [] }
  | some f =>
    match uploadSizeChartImage f with
    | Except.error e => Except.error e
    | Except.ok img =>
      Except.ok { status := 200, success := true,
                  message := some "Size chart uploaded successfully", images := [img] }

/-! ### Concrete data used by the witnesses -/

/-- A concrete product image. -/
def demoImage : Image := { url := "https://cdn.example/img1.png", publicId := "pid1" }

/-- A concrete active product with images and a size chart. -/
def demoProduct : Product :=
  { _id := 1, __v := 0, createdAt := 100, updatedAt := 100,
    name := "Shirt", description := "Cotton shirt", brand := "Acme",
    category := "apparel", sku := some "S1", images := [demoImage],
    sizeChart := some { imageUrl := "https://cdn.example/sc.png", imagePublicId := "scpid" },
    shippingStructure := 7, isActive := true, averageRating := 4, reviewCount := 2 }

/-- A concrete soft-deleted product. -/
def demoInactive : Product :=
  { demoProduct with _id := 2, name := "Hat", brand := "Zeta", isActive := false }

/-- A concrete store holding one active and one inactive product. -/
def demoStore : Store := ⟨[demoProduct, demoInactive]⟩

/-- A media oracle on which both cleanup calls reject. -/
def demoFailingMedia : MediaOracle :=
  { deleteMultipleImagesErr := some "boom", deleteCloudinaryImageErr := some "crash" }

/-- A concrete always-false text-search collaborator is not needed; the
witnesses use this always-true one. -/
def demoTextMatch : String → Product → Bool := fun _ _ => true

/-- A concrete upload collaborator that succeeds on every file list. -/
def demoUploadMany : List String → Except String (List Image) :=
  fun fs => Except.ok (fs.map (fun f => { url := "https://cdn.example/" ++ f, publicId := "pid-" ++ f }))

/-- A concrete upload collaborator that succeeds on a single file. -/
def demoUploadOne : String → Except String Image :=
  fun f => Except.ok { url := "https://cdn.example/" ++ f, publicId := "pid-" ++ f }

/-- A concrete update body supplying two immutable keys (`_id`,
`updatedAt`) and two mutable keys (`name`, `averageRating`). -/
def demoUpdateBody : UpdateBody :=
  { _id := some 99, updatedAt := some 999, name := some "Tee", averageRating := some 5 }

/-! ### Helper lemmas -/

/-- Replacing, in a list of products, every document carrying the id of an
already-found document leaves `find?` returning the replacement. -/
theorem find?_map_update (l : List Product) (i : Nat) (p p' : Product)
    (h : l.find? (fun q => q._id == i) = some p) (hid : p'._id = p._id) :
    (l.map (fun q => if q._id == p'._id then p' else q)).find? (fun q => q._id == i) = some p' := by
  induction l with
  | nil => simp at h
  | cons x rest ih =>
    have hpi' : p._id = i := by
      have hpi := List.find?_some h
      simpa using hpi
    by_cases hx : (x._id == i) = true
    · have hxe : x._id = i := by simpa using hx
      rw [List.find?_cons_of_pos (p := fun q => q._id == i) (a := x) rest hx] at h
      injection h with h
      subst h
      have hc : (x._id == p'._id) = true := by simp [hid]
      have hp' : (p'._id == i) = true := by simp [hid, hxe]
      simp only [List.map_cons]
      rw [if_pos hc]
      exact List.find?_cons_of_pos (p := fun q => q._id == i) (a := p') _ hp'
    · have hxe : ¬ x._id = i := by simpa using hx
      rw [List.find?_cons_of_neg (p := fun q => q._id == i) (a := x) rest hx] at h
      have hc : ¬ ((x._id == p'._id) = true) := by simp [hid, hpi', hxe]
      simp only [List.map_cons]
      rw [if_neg hc]
      rw [List.find?_cons_of_neg (p := fun q => q._id == i) (a := x) _ hx]
      exact ih h

/-- Lemma: `saveProduct` persists exactly the saved document at its id. -/
theorem findById_saveProduct (st : Store) (i : Nat) (p p' : Product)
    (h : findById st i = some p) (hid : p'._id = p._id) :
    findById (saveProduct st p') i = some p' :=
  find?_map_update st.products i p p' h hid

/-- Membership through the modelled insertion. -/
theorem mem_insertLe (le : Product → Product → Bool) (p x : Product)
    (l : List Product) : x ∈ insertLe le p l ↔ x = p ∨ x ∈ l := by
  induction l with
  | nil => simp [insertLe]
  | cons q rest ih =>
    simp only [insertLe]
    by_cases hle : le p q = true
    · rw [if_pos hle]
      simp [List.mem_cons]
    · rw [if_neg hle]
      simp only [List.mem_cons, ih]
      tauto

/-- The modelled sort is a reordering: membership is preserved. -/
theorem mem_sortProducts (le : Product → Product → Bool) (l : List Product)
    (x : Product) : x ∈ sortProducts le l ↔ x ∈ l := by
  induction l with
  | nil => simp [sortProducts]
  | cons p rest ih => simp [sortProducts, mem_insertLe, ih]

/-- Lemma: `(a + b - 1) / b` — the natural-number form of `Math.ceil(a / b)` the
controller computes — coincides with the rational ceiling for positive `b`. -/
theorem ceilDiv_eq_natCeil (a b : ℕ) (hb : 0 < b) :
    ((a + b - 1) / b : ℕ) = ⌈(a : ℚ) / (b : ℚ)⌉₊ := by
  refine le_antisymm ?_ ?_
  · rw [Nat.div_le_iff_le_mul_add_pred hb]
    have h1 := Nat.le_ceil ((a : ℚ) / (b : ℚ))
    rw [div_le_iff₀ (by exact_mod_cast hb)] at h1
    have h2 : (a : ℕ) ≤ ⌈(a : ℚ) / (b : ℚ)⌉₊ * b := by exact_mod_cast h1
    rw [mul_comm] at h2
    omega
  · rw [Nat.ceil_le, div_le_iff₀ (by exact_mod_cast hb)]
    have hq : (a + b - 1) % b < b := Nat.mod_lt _ hb
    have hd := Nat.div_add_mod (a + b - 1) b
    have h3 : a ≤ b * ((a + b - 1) / b) := by omega
    rw [mul_comm] at h3
    exact_mod_cast h3

/-- Closed form of `deleteProduct` on a found document. -/
theorem deleteProduct_found (st : Store) (i : Nat) (m : MediaOracle) (p : Product)
    (h : findById st i = some p) :
    deleteProduct st i m =
      ({ status := 200, success := true, message := some "Product deleted successfully",
         log := cleanupLog p m }, saveProduct st { p with isActive := false }) := by
  unfold deleteProduct
  rw [h]

/-- Closed form of the update loop: the four immutable keys are skipped,
every other key merges supplied-or-prior. -/
theorem applyBody_eq (p : Product) (b : UpdateBody) :
    applyBody p b =
      { _id := p._id, __v := p.__v, createdAt := p.createdAt, updatedAt := p.updatedAt,
        name := b.name.getD p.name, description := b.description.getD p.description,
        brand := b.brand.getD p.brand, category := b.category.getD p.category,
        sku := b.sku.getD p.sku, images := b.images.getD p.images,
        sizeChart := b.sizeChart.getD p.sizeChart,
        shippingStructure := b.shippingStructure.getD p.shippingStructure,
        isActive := b.isActive.getD p.isActive,
        averageRating := b.averageRating.getD p.averageRating,
        reviewCount := b.reviewCount.getD p.reviewCount } := by
  simp [applyBody, allFieldKeys, assignField, immutableFields]

/-! ### Claim theorems -/

/-- Claim C1: for every product id that resolves to a record, soft delete
succeeds — each media-cleanup rejection is caught per call, logged and
suppressed (the handler's 200 success and the persisted `isActive := false`
hold under every media-oracle outcome, so no cleanup failure propagates). -/
theorem deleteProduct_best_effort (st : Store) (i : Nat) (m : MediaOracle)
    (p : Product) (h : findById st i = some p) :
    (deleteProduct st i m).1.status = 200 ∧
    (deleteProduct st i m).1.success = true ∧
    findById (deleteProduct st i m).2 i = some { p with isActive := false } ∧
    (∀ e, 0 < p.images.length → m.deleteMultipleImagesErr = some e →
      ("Error deleting product images: " ++ e) ∈ (deleteProduct st i m).1.log) ∧
    (∀ e sc, p.sizeChart = some sc → sc.imagePublicId ≠ "" →
      m.deleteCloudinaryImageErr = some e →
      ("Error deleting size chart image: " ++ e) ∈ (deleteProduct st i m).1.log) := by
  rw [deleteProduct_found st i m p h]
  refine ⟨rfl, rfl, findById_saveProduct st i p _ h rfl, ?_, ?_⟩
  · intro e him herr
    simp [cleanupLog, him, herr]
  · intro e sc hsc hne herr
    simp [cleanupLog, hsc, hne, herr]

/-- Witness for C1 at a concrete store, product and a media oracle on which
both cleanup calls reject. -/
theorem deleteProduct_best_effort_witness :
    findById demoStore 1 = some demoProduct ∧
    (deleteProduct demoStore 1 demoFailingMedia).1.status = 200 ∧
    (deleteProduct demoStore 1 demoFailingMedia).1.success = true ∧
    findById (deleteProduct demoStore 1 demoFailingMedia).2 1 =
      some { demoProduct with isActive := false } ∧
    ("Error deleting product images: boom") ∈ (deleteProduct demoStore 1 demoFailingMedia).1.log ∧
    ("Error deleting size chart image: crash") ∈ (deleteProduct demoStore 1 demoFailingMedia).1.log := by
  have h := deleteProduct_best_effort demoStore 1 demoFailingMedia demoProduct rfl
  exact ⟨rfl, h.1, h.2.1, h.2.2.1,
    h.2.2.2.1 "boom" (by decide) rfl,
    h.2.2.2.2 "crash"
      { imageUrl := "https://cdn.example/sc.png", imagePublicId := "scpid" }
      rfl (by decide) rfl⟩

/-- Claim C5: an id resolving to no record yields a 404 `success = false`
response from each of Get, Update, Delete and Duplicate; each handler
returns this response normally (the embeddings are total functions into
their response types — no error value is produced) and the store is
untouched. -/
theorem not_found_404 (st : Store) (i : Nat) (b : UpdateBody) (m : MediaOracle)
    (freshId now : Nat) (h : findById st i = none) :
    getProduct st i =
      { status := 404, success := false, message := some "Product not found",
        product := none } ∧
    updateProduct st i b =
      ({ status := 404, success := false, message := some "Product not found",
         product := none }, st) ∧
    deleteProduct st i m =
      ({ status := 404, success := false, message := some "Product not found",
         log := [] }, st) ∧
    duplicateProduct st i freshId now =
      ({ status := 404, success := false, message := some "Product not found",
         product := none }, st) := by
  refine ⟨?_, ?_, ?_, ?_⟩
  · unfold getProduct; rw [h]
  · unfold updateProduct; rw [h]
  · unfold deleteProduct; rw [h]
  · unfold duplicateProduct; rw [h]

/-- Witness for C5 at a concrete store and an absent id. -/
theorem not_found_404_witness :
    findById demoStore 999 = none ∧
    getProduct demoStore 999 =
      { status := 404, success := false, message := some "Product not found",
        product := none } ∧
    updateProduct demoStore 999 {} =
      ({ status := 404, success := false, message := some "Product not found",
         product := none }, demoStore) ∧
    deleteProduct demoStore 999 {} =
      ({ status := 404, success := false, message := some "Product not found",
         log := [] }, demoStore) ∧
    duplicateProduct demoStore 999 50 200 =
      ({ status := 404, success := false, message := some "Product not found",
         product := none }, demoStore) := by
  have h := not_found_404 demoStore 999 {} {} 50 200 rfl
  exact ⟨rfl, h.1, h.2.1, h.2.2.1, h.2.2.2⟩

/-- Claim C6: delete is idempotent on `isActive` — both calls answer 200
success and leave the stored record inactive; the second call is quantified
over an arbitrary media-oracle outcome, covering in particular the cleanup
calls rejecting because the images were already removed by the first
call. -/
theorem deleteProduct_idempotent (st : Store) (i : Nat) (m1 m2 : MediaOracle)
    (p : Product) (h : findById st i = some p) :
    (deleteProduct st i m1).1.status = 200 ∧
    (deleteProduct st i m1).1.success = true ∧
    findById (deleteProduct st i m1).2 i = some { p with isActive := false } ∧
    (deleteProduct (deleteProduct st i m1).2 i m2).1.status = 200 ∧
    (deleteProduct (deleteProduct st i m1).2 i m2).1.success = true ∧
    findById (deleteProduct (deleteProduct st i m1).2 i m2).2 i =
      some { p with isActive := false } := by
  have h1 := deleteProduct_found st i m1 p h
  have hf1 : findById (deleteProduct st i m1).2 i = some { p with isActive := false } := by
    rw [h1]
    exact findById_saveProduct st i p _ h rfl
  have h2 := deleteProduct_found (deleteProduct st i m1).2 i m2 _ hf1
  refine ⟨by rw [h1], by rw [h1], hf1, by rw [h2], by rw [h2], ?_⟩
  rw [h2]
  exact findById_saveProduct (deleteProduct st i m1).2 i
    { p with isActive := false } _ hf1 rfl

/-- Witness for C6: two consecutive deletes of the same concrete id, the
second under a media oracle on which both cleanup calls reject. -/
theorem deleteProduct_idempotent_witness :
    findById demoStore 1 = some demoProduct ∧
    (deleteProduct (deleteProduct demoStore 1 demoFailingMedia).2 1 demoFailingMedia).1.status = 200 ∧
    (deleteProduct (deleteProduct demoStore 1 demoFailingMedia).2 1 demoFailingMedia).1.success = true ∧
    findById (deleteProduct (deleteProduct demoStore 1 demoFailingMedia).2 1 demoFailingMedia).2 1 =
      some { demoProduct with isActive := false } := by
  have h := deleteProduct_idempotent demoStore 1 demoFailingMedia demoFailingMedia demoProduct rfl
  exact ⟨rfl, h.2.2.2.1, h.2.2.2.2.1, h.2.2.2.2.2⟩

/-- Claim C2: for every existing product and partial field map, Update
leaves `_id`, the version marker `__v`, `createdAt` and `updatedAt` at
their prior values even when those keys appear in the request body, while
every other supplied key overwrites the prior value of its field (and an
absent key leaves its field unchanged), the result being persisted and
returned with 200. -/
theorem updateProduct_immutable (st : Store) (i : Nat) (b : UpdateBody)
    (p : Product) (h : findById st i = some p) :
    updateProduct st i b =
      ({ status := 200, success := true, message := some "Product updated successfully",
         product := some (applyBody p b) }, saveProduct st (applyBody p b)) ∧
    (applyBody p b)._id = p._id ∧
    (applyBody p b).__v = p.__v ∧
    (applyBody p b).createdAt = p.createdAt ∧
    (applyBody p b).updatedAt = p.updatedAt ∧
    (applyBody p b).name = b.name.getD p.name ∧
    (applyBody p b).description = b.description.getD p.description ∧
    (applyBody p b).brand = b.brand.getD p.brand ∧
    (applyBody p b).category = b.category.getD p.category ∧
    (applyBody p b).sku = b.sku.getD p.sku ∧
    (applyBody p b).images = b.images.getD p.images ∧
    (applyBody p b).sizeChart = b.sizeChart.getD p.sizeChart ∧
    (applyBody p b).shippingStructure = b.shippingStructure.getD p.shippingStructure ∧
    (applyBody p b).isActive = b.isActive.getD p.isActive ∧
    (applyBody p b).averageRating = b.averageRating.getD p.averageRating ∧
    (applyBody p b).reviewCount = b.reviewCount.getD p.reviewCount := by
  have he := applyBody_eq p b
  refine ⟨?_, ?_, ?_, ?_, ?_, ?_, ?_, ?_, ?_, ?_, ?_, ?_, ?_, ?_, ?_, ?_⟩
  · unfold updateProduct
    rw [h]
  all_goals rw [he]

/-- Witness for C2 at a concrete store, product and update body. -/
theorem updateProduct_immutable_witness :
    findById demoStore 1 = some demoProduct ∧
    updateProduct demoStore 1 demoUpdateBody =
      ({ status := 200, success := true, message := some "Product updated successfully",
         product := some (applyBody demoProduct demoUpdateBody) },
       saveProduct demoStore (applyBody demoProduct demoUpdateBody)) ∧
    (applyBody demoProduct demoUpdateBody)._id = demoProduct._id ∧
    (applyBody demoProduct demoUpdateBody).updatedAt = demoProduct.updatedAt ∧
    (applyBody demoProduct demoUpdateBody).name = demoUpdateBody.name.getD demoProduct.name ∧
    (applyBody demoProduct demoUpdateBody).brand = demoUpdateBody.brand.getD demoProduct.brand := by
  have h := updateProduct_immutable demoStore 1 demoUpdateBody demoProduct rfl
  exact ⟨rfl, h.1, h.2.1, h.2.2.2.2.1, h.2.2.2.2.2.1, h.2.2.2.2.2.2.2.1⟩

/-- Claim C3: duplicating an existing source answers 201 and creates a
record whose name is the source name with `" (Copy)"` appended, whose `sku`
is cleared (regeneration is downstream), whose review aggregates are zero,
whose every other copyable field — `isActive` included, which is not
reset — equals the source's, and whose identity and timestamps are the
store-assigned fresh ones rather than copies of the source's. -/
theorem duplicateProduct_copy (st : Store) (i freshId now : Nat)
    (orig : Product) (h : findById st i = some orig) :
    duplicateProduct st i freshId now =
      ({ status := 201, success := true, message := some "Product duplicated successfully",
         product := some ((duplicateData orig).toDoc freshId now) },
       ⟨st.products ++ [(duplicateData orig).toDoc freshId now]⟩) ∧
    ((duplicateData orig).toDoc freshId now).name = orig.name ++ " (Copy)" ∧
    ((duplicateData orig).toDoc freshId now).sku = none ∧
    ((duplicateData orig).toDoc freshId now).averageRating = 0 ∧
    ((duplicateData orig).toDoc freshId now).reviewCount = 0 ∧
    ((duplicateData orig).toDoc freshId now).isActive = orig.isActive ∧
    ((duplicateData orig).toDoc freshId now).description = orig.description ∧
    ((duplicateData orig).toDoc freshId now).brand = orig.brand ∧
    ((duplicateData orig).toDoc freshId now).category = orig.category ∧
    ((duplicateData orig).toDoc freshId now).images = orig.images ∧
    ((duplicateData orig).toDoc freshId now).sizeChart = orig.sizeChart ∧
    ((duplicateData orig).toDoc freshId now).shippingStructure = orig.shippingStructure ∧
    ((duplicateData orig).toDoc freshId now)._id = freshId ∧
    ((duplicateData orig).toDoc freshId now).__v = 0 ∧
    ((duplicateData orig).toDoc freshId now).createdAt = now ∧
    ((duplicateData orig).toDoc freshId now).updatedAt = now := by
  refine ⟨?_, rfl, rfl, rfl, rfl, rfl, rfl, rfl, rfl, rfl, rfl, rfl, rfl, rfl, rfl, rfl⟩
  unfold duplicateProduct
  rw [h]
  rfl

/-- Witness for C3 at the concrete soft-deleted source, exhibiting that
`isActive = false` is carried over to the duplicate. -/
theorem duplicateProduct_copy_witness :
    findById demoStore 2 = some demoInactive ∧
    ((duplicateData demoInactive).toDoc 50 200).name = demoInactive.name ++ " (Copy)" ∧
    ((duplicateData demoInactive).toDoc 50 200).sku = none ∧
    ((duplicateData demoInactive).toDoc 50 200).isActive = demoInactive.isActive ∧
    ((duplicateData demoInactive).toDoc 50 200)._id = 50 := by
  have h := duplicateProduct_copy demoStore 2 50 200 demoInactive rfl
  exact ⟨rfl, h.2.1, h.2.2.1, h.2.2.2.2.2.1, h.2.2.2.2.2.2.2.2.2.2.2.2.1⟩

/-- Inversion of a successful `getAllProducts`: the response is `runList` at
the brand filter the query determined. -/
theorem getAllProducts_ok (tm : String → Product → Bool) (st : Store)
    (q : ListQuery) (r : ListResp) (hr : getAllProducts tm st q = Except.ok r) :
    (q.brand = none ∧ r = runList tm st q none) ∨
    (∃ bstr re, q.brand = some bstr ∧ compileRegex bstr = some re ∧
      r = runList tm st q (some re)) := by
  cases hb : q.brand with
  | none =>
    have hstep : getAllProducts tm st q = Except.ok (runList tm st q none) := by
      simp only [getAllProducts, hb]
    rw [hstep] at hr
    exact Or.inl ⟨rfl, (Except.ok.inj hr).symm⟩
  | some bstr =>
    cases hc : compileRegex bstr with
    | none =>
      have hstep : getAllProducts tm st q =
          Except.error "SyntaxError: Invalid regular expression" := by
        simp only [getAllProducts, hb, hc]
      rw [hstep] at hr
      exact absurd hr (by simp)
    | some re =>
      have hstep : getAllProducts tm st q = Except.ok (runList tm st q (some re)) := by
        simp only [getAllProducts, hb, hc]
      rw [hstep] at hr
      exact Or.inr ⟨bstr, re, rfl, hc, (Except.ok.inj hr).symm⟩

/-- Inversion of a successful `searchProducts`: either the 400 guard fired
or the term compiled and the capped query ran. -/
theorem searchProducts_ok (st : Store) (q : Option String) (r : SearchResp)
    (hr : searchProducts st q = Except.ok r) :
    ((q = none ∨ q = some "") ∧
      r = { status := 400, success := false, message := some "Search query is required",
            count := 0, products := [] }) ∨
    (∃ s re, q = some s ∧ s ≠ "" ∧ compileRegex s = some re ∧
      r = { status := 200, success := true, message := none,
            count := ((st.products.filter (searchPred re)).take 20).length,
            products := (st.products.filter (searchPred re)).take 20 }) := by
  cases q with
  | none =>
    exact Or.inl ⟨Or.inl rfl, (Except.ok.inj hr).symm⟩
  | some s =>
    by_cases hs : s = ""
    · subst hs
      exact Or.inl ⟨Or.inr rfl, (Except.ok.inj hr).symm⟩
    · cases hc : compileRegex s with
      | none =>
        have hstep : searchProducts st (some s) =
            Except.error "SyntaxError: Invalid regular expression" := by
          simp only [searchProducts, hc]
          rw [if_neg hs]
        rw [hstep] at hr
        exact absurd hr (by simp)
      | some re =>
        have hstep : searchProducts st (some s) =
            Except.ok
              { status := 200, success := true, message := none,
                count := ((st.products.filter (searchPred re)).take 20).length,
                products := (st.products.filter (searchPred re)).take 20 } := by
          simp only [searchProducts, hc]
          rw [if_neg hs]
        rw [hstep] at hr
        exact Or.inr ⟨s, re, rfl, hs, hc, (Except.ok.inj hr).symm⟩

/-- Every product on a `runList` page satisfies the built query — in
particular `isActive`. -/
theorem runList_products_active (tm : String → Product → Bool) (st : Store)
    (q : ListQuery) (br : Option (List RAtom)) (p : Product)
    (hp : p ∈ (runList tm st q br).products) : p.isActive = true := by
  have hp' : p ∈ ((sortProducts (sortLe q.sortBy)
      (st.products.filter (listQueryPred tm q br))).drop
      ((q.page - 1) * q.limit)).take q.limit := hp
  have h2 := List.mem_of_mem_drop (List.mem_of_mem_take hp')
  rw [mem_sortProducts] at h2
  have h3 := (List.mem_filter.mp h2).2
  simp only [listQueryPred, Bool.and_eq_true] at h3
  exact h3.1.1.1

/-- Claim C4: List and Search return only records with `isActive = true` (a
record with `isActive = false` never appears in either result), while
Get-by-id answers 200 with the record for an existing id regardless of its
`isActive` value. -/
theorem active_only_listing (tm : String → Product → Bool) (st : Store)
    (q : ListQuery) (qs : Option String) (i : Nat) :
    (∀ r, getAllProducts tm st q = Except.ok r → ∀ p ∈ r.products, p.isActive = true) ∧
    (∀ r, searchProducts st qs = Except.ok r → ∀ p ∈ r.products, p.isActive = true) ∧
    (∀ p, findById st i = some p →
      getProduct st i = { status := 200, success := true, message := none,
                          product := some p }) := by
  refine ⟨?_, ?_, ?_⟩
  · intro r hr p hp
    rcases getAllProducts_ok tm st q r hr with ⟨hb, rfl⟩ | ⟨bstr, re, hb, hc, rfl⟩
    · exact runList_products_active tm st q none p hp
    · exact runList_products_active tm st q (some re) p hp
  · intro r hr p hp
    rcases searchProducts_ok st qs r hr with ⟨hq, rfl⟩ | ⟨s, re, hq, hs, hc, rfl⟩
    · simp at hp
    · have hp' : p ∈ (st.products.filter (searchPred re)).take 20 := hp
      have h2 := (List.mem_filter.mp (List.mem_of_mem_take hp')).2
      simp only [searchPred, Bool.and_eq_true] at h2
      exact h2.2
  · intro p hp
    unfold getProduct
    rw [hp]

/-- Witness for C4: Search at a concrete store returns the active product
(whose activity the theorem then yields), and Get-by-id returns the
soft-deleted record with 200. -/
theorem active_only_listing_witness :
    demoProduct.isActive = true ∧ demoInactive.isActive = false ∧
    getProduct demoStore 2 = { status := 200, success := true, message := none,
                               product := some demoInactive } := by
  have h := active_only_listing demoTextMatch demoStore {} (some "Shirt") 2
  refine ⟨?_, rfl, h.2.2 demoInactive rfl⟩
  exact h.2.1 { status := 200, success := true, message := none, count := 1,
                products := [demoProduct] } rfl demoProduct (by simp)

/-- Claim C7: Search answers 400 exactly on a missing or empty term; on a
non-empty term whose regex compiles, the successful response is capped at
20 entries, each of them active and matching the case-insensitive regex on
name, brand or description (logical or). -/
theorem searchProducts_contract (st : Store) (q : Option String) :
    ((q = none ∨ q = some "") →
      searchProducts st q = Except.ok
        { status := 400, success := false, message := some "Search query is required",
          count := 0, products := [] }) ∧
    (∀ s re r, q = some s → s ≠ "" → compileRegex s = some re →
      searchProducts st q = Except.ok r →
      r.status = 200 ∧ r.products.length ≤ 20 ∧
      ∀ p ∈ r.products, p.isActive = true ∧
        (regexTest re p.name.toList || regexTest re p.brand.toList
          || regexTest re p.description.toList) = true) := by
  constructor
  · rintro (rfl | rfl) <;> rfl
  · rintro s re r rfl hs hc hr
    rcases searchProducts_ok st (some s) r hr with ⟨hq, rfl⟩ | ⟨s', re', hq, hs', hc', rfl⟩
    · rcases hq with hq | hq
      · exact Option.noConfusion hq
      · exact absurd (Option.some.inj hq) hs
    · obtain rfl : s = s' := Option.some.inj hq
      obtain rfl : re = re' := by
        rw [hc] at hc'
        exact Option.some.inj hc'
      refine ⟨rfl, ?_, ?_⟩
      · show ((st.products.filter (searchPred re)).take 20).length ≤ 20
        rw [List.length_take]
        exact min_le_left _ _
      · intro p hp
        have hp' : p ∈ (st.products.filter (searchPred re)).take 20 := hp
        have h2 := (List.mem_filter.mp (List.mem_of_mem_take hp')).2
        simp only [searchPred, Bool.and_eq_true] at h2
        exact ⟨h2.2, h2.1⟩

/-- Witness for C7: the missing-term 400 and the concrete capped result,
instantiated at the single matching product. -/
theorem searchProducts_contract_witness :
    searchProducts demoStore none = Except.ok
      { status := 400, success := false, message := some "Search query is required",
        count := 0, products := [] } ∧
    searchProducts demoStore (some "Shirt") = Except.ok
      { status := 200, success := true, message := none, count := 1,
        products := [demoProduct] } ∧
    ([demoProduct] : List Product).length ≤ 20 ∧
    demoProduct.isActive = true := by
  have h0 := (searchProducts_contract demoStore none).1 (Or.inl rfl)
  have hre : compileRegex "Shirt" =
      some [RAtom.lit 'S', RAtom.lit 'h', RAtom.lit 'i', RAtom.lit 'r', RAtom.lit 't'] := rfl
  have hsp : searchProducts demoStore (some "Shirt") = Except.ok
      { status := 200, success := true, message := none, count := 1,
        products := [demoProduct] } := rfl
  have h2 := (searchProducts_contract demoStore (some "Shirt")).2 "Shirt"
    [RAtom.lit 'S', RAtom.lit 'h', RAtom.lit 'i', RAtom.lit 'r', RAtom.lit 't']
    { status := 200, success := true, message := none, count := 1,
      products := [demoProduct] }
    rfl (by decide) hre hsp
  exact ⟨h0, hsp, h2.2.1, (h2.2.2 demoProduct (by simp)).1⟩

/-- Claim C8 counterexample: a successful bulk image upload and a
successful size-chart upload both answer status 200 — not the 201 the
claim assigns to upload success. -/
theorem upload_success_status_counterexample :
    uploadImages ["front.png"] demoUploadMany = Except.ok
      { status := 200, success := true, message := some "Images uploaded successfully",
        images := [{ url := "https://cdn.example/front.png", publicId := "pid-front.png" }] } ∧
    uploadSizeChart (some "chart.png") demoUploadOne = Except.ok
      { status := 200, success := true, message := some "Size chart uploaded successfully",
        images := [{ url := "https://cdn.example/chart.png", publicId := "pid-chart.png" }] } ∧
    (200 : Nat) ≠ 201 := by
  exact ⟨rfl, rfl, by decide⟩

/-- Claim C8 amended: successful read, update and delete answer 200, and so
do both successful uploads, while successful create and duplicate
answer 201. -/
theorem status_codes_by_operation (tm : String → Product → Bool) (st : Store)
    (i freshId now : Nat) (b : UpdateBody) (d : ProductData) (m : MediaOracle)
    (lq : ListQuery) (qs : Option String) (files : List String)
    (up : List String → Except String (List Image)) (file : Option String)
    (upOne : String → Except String Image) :
    (createProduct st d freshId now).1.status = 201 ∧
    (∀ p, findById st i = some p →
      (duplicateProduct st i freshId now).1.status = 201 ∧
      (getProduct st i).status = 200 ∧
      (updateProduct st i b).1.status = 200 ∧
      (deleteProduct st i m).1.status = 200) ∧
    (∀ r, getAllProducts tm st lq = Except.ok r → r.status = 200) ∧
    (∀ r, searchProducts st qs = Except.ok r → r.success = true → r.status = 200) ∧
    (∀ r, uploadImages files up = Except.ok r → r.success = true → r.status = 200) ∧
    (∀ r, uploadSizeChart file upOne = Except.ok r → r.success = true → r.status = 200) := by
  refine ⟨rfl, ?_, ?_, ?_, ?_, ?_⟩
  · intro p hp
    refine ⟨?_, ?_, ?_, ?_⟩
    · unfold duplicateProduct; rw [hp]
    · unfold getProduct; rw [hp]
    · unfold updateProduct; rw [hp]
    · unfold deleteProduct; rw [hp]
  · intro r hr
    rcases getAllProducts_ok tm st lq r hr with ⟨hb, rfl⟩ | ⟨bstr, re, hb, hc, rfl⟩ <;> rfl
  · intro r hr hsucc
    rcases searchProducts_ok st qs r hr with ⟨hq, rfl⟩ | ⟨s, re, hq, hs, hc, rfl⟩
    · exact Bool.noConfusion hsucc
    · rfl
  · intro r hr hsucc
    by_cases hf : files.length = 0
    · unfold uploadImages at hr
      rw [if_pos hf] at hr
      obtain rfl := (Except.ok.inj hr).symm
      exact Bool.noConfusion hsucc
    · unfold uploadImages at hr
      rw [if_neg hf] at hr
      cases hu : up files with
      | error e => rw [hu] at hr; exact Except.noConfusion hr
      | ok imgs =>
        rw [hu] at hr
        obtain rfl := (Except.ok.inj hr).symm
        rfl
  · intro r hr hsucc
    cases file with
    | none =>
      obtain rfl := (Except.ok.inj hr).symm
      exact Bool.noConfusion hsucc
    | some f =>
      simp only [uploadSizeChart] at hr
      cases hu : upOne f with
      | error e => rw [hu] at hr; exact Except.noConfusion hr
      | ok img =>
        rw [hu] at hr
        obtain rfl := (Except.ok.inj hr).symm
        rfl

/-- Witness for the amended C8 at concrete inputs for every operation
class. -/
theorem status_codes_by_operation_witness :
    (createProduct demoStore {} 50 200).1.status = 201 ∧
    (duplicateProduct demoStore 1 50 200).1.status = 201 ∧
    (getProduct demoStore 1).status = 200 ∧
    (updateProduct demoStore 1 demoUpdateBody).1.status = 200 ∧
    (deleteProduct demoStore 1 demoFailingMedia).1.status = 200 ∧
    (200 : Nat) = 200 := by
  have h := status_codes_by_operation demoTextMatch demoStore 1 50 200 demoUpdateBody {}
    demoFailingMedia {} (some "Shirt") ["front.png"] demoUploadMany (some "chart.png")
    demoUploadOne
  have hfound := h.2.1 demoProduct rfl
  refine ⟨h.1, hfound.1, hfound.2.1, hfound.2.2.1, hfound.2.2.2, ?_⟩
  exact h.2.2.2.2.1
    { status := 200, success := true, message := some "Images uploaded successfully",
      images := [{ url := "https://cdn.example/front.png", publicId := "pid-front.png" }] }
    rfl rfl

/-- Claim C9: the list response's `total` equals the number of records
matching the built query, `totalPages` is the ceiling of `total / limit`
(stated as the rational ceiling), and the destructuring defaults are
page 1 and limit 10. -/
theorem getAllProducts_count (tm : String → Product → Bool) (st : Store)
    (q : ListQuery) (r : ListResp) (hlim : 0 < q.limit)
    (hr : getAllProducts tm st q = Except.ok r) :
    (q.brand = none → r.total = (st.products.filter (listQueryPred tm q none)).length) ∧
    (∀ bstr re, q.brand = some bstr → compileRegex bstr = some re →
      r.total = (st.products.filter (listQueryPred tm q (some re))).length) ∧
    r.totalPages = ⌈(r.total : ℚ) / (q.limit : ℚ)⌉₊ ∧
    ({} : ListQuery).page = 1 ∧ ({} : ListQuery).limit = 10 := by
  rcases getAllProducts_ok tm st q r hr with ⟨hb, rfl⟩ | ⟨bstr, re, hb, hc, rfl⟩
  · refine ⟨fun _ => rfl, ?_, ?_, rfl, rfl⟩
    · intro bs re hbs
      rw [hb] at hbs
      exact Option.noConfusion hbs
    · exact ceilDiv_eq_natCeil (st.products.filter (listQueryPred tm q none)).length
        q.limit hlim
  · refine ⟨?_, ?_, ?_, rfl, rfl⟩
    · intro hnone
      rw [hb] at hnone
      exact Option.noConfusion hnone
    · intro bs re' hbs hcs
      obtain rfl : bstr = bs := by
        rw [hb] at hbs
        exact Option.some.inj hbs
      obtain rfl : re = re' := by
        rw [hc] at hcs
        exact Option.some.inj hcs
      rfl
    · exact ceilDiv_eq_natCeil (st.products.filter (listQueryPred tm q (some re))).length
        q.limit hlim

/-- Witness for C9 at the concrete store and the default query. -/
theorem getAllProducts_count_witness :
    getAllProducts demoTextMatch demoStore {} = Except.ok
      { status := 200, success := true, count := 1, total := 1, totalPages := 1,
        currentPage := 1, products := [demoProduct] } ∧
    (1 : Nat) = (demoStore.products.filter (listQueryPred demoTextMatch {} none)).length ∧
    (1 : Nat) = ⌈((1 : Nat) : ℚ) / ((10 : Nat) : ℚ)⌉₊ ∧
    ({} : ListQuery).page = 1 ∧ ({} : ListQuery).limit = 10 := by
  have hr : getAllProducts demoTextMatch demoStore {} = Except.ok
      { status := 200, success := true, count := 1, total := 1, totalPages := 1,
        currentPage := 1, products := [demoProduct] } := rfl
  have h := getAllProducts_count demoTextMatch demoStore {}
    { status := 200, success := true, count := 1, total := 1, totalPages := 1,
      currentPage := 1, products := [demoProduct] } (by decide) hr
  exact ⟨hr, h.1 rfl, h.2.2.1, h.2.2.2.1, h.2.2.2.2⟩

/-- Claim C10: the user term is compiled directly into a regex (as is
List's brand filter): the pattern `.` matches `"xy"` although it is not a
case-insensitive literal substring of it, and the invalid pattern `(`
compiles to no regex, so Search — and List given it as a brand filter —
propagates an error to the generic handler (surfaced as 500), returning
neither a 400 nor a result page. -/
theorem regex_injection (st : Store) (tm : String → Product → Bool) :
    compileRegex "." = some [RAtom.dot] ∧
    regexTest [RAtom.dot] "xy".toList = true ∧
    containsCI "." "xy" = false ∧
    compileRegex "(" = none ∧
    searchProducts st (some "(") =
      Except.error "SyntaxError: Invalid regular expression" ∧
    handleSearch st (some "(") = 500 ∧
    getAllProducts tm st { brand := some "(" } =
      Except.error "SyntaxError: Invalid regular expression" := by
  exact ⟨rfl, rfl, rfl, rfl, rfl, rfl, rfl⟩

end B2B
